import Mathlib

/-!
Verification of the `tui-gradient-block` widget (the iteration recorded in
`src/gradient_block.rs`, `src/gradientblockfunctions.rs`, `src/types.rs`,
`src/macros.rs`, `src/predefined.rs`).

Modelling conventions:
* Rust `u16`/`usize` arithmetic is modelled with `Nat`; `saturating_sub` is
  `Nat` subtraction (which is saturating).
* Rust `f32` arithmetic is idealised as exact rational (`ℚ`) arithmetic.
  `f32::powf` is kept abstract: every definition that needs it takes a
  parameter `pw : ℚ → ℚ → ℚ`; theorems assume only facts that IEEE-754
  `powf` guarantees exactly (`powf 0 f = 0` for `f > 0`, `powf 1 f = 1`,
  `powf t 1 = t`).  Where the Rust code would produce `NaN`
  (`0.0 / 0.0` when the total text width is zero) the rational model
  produces `0`; no theorem below depends on that case's color values.
* `unicode_width`'s `Char::width` is an external crate table; it is a
  parameter `w : Char → ℕ` (the `unwrap_or(1)` default is the caller's
  concern: `w c` is the width actually used for `c`).
* Rust's `expr as u8` float-to-int cast saturates: negative to `0`,
  above `255` to `255`, otherwise truncation toward zero.
-/

namespace TGB

/-- An 8-bit RGB triple `(u8, u8, u8)`; channels are `Nat`s, in-range
inputs carry `< 256` hypotheses where a theorem needs them. -/
abbrev RGB := ℕ × ℕ × ℕ

/-- Rust `q as u8` for a (finite) nonnegative-or-negative float value `q`:
saturating cast with truncation toward zero. -/
def toU8 (q : ℚ) : ℕ :=
  if q < 0 then 0 else min 255 (Int.toNat q.floor)

/-- Outcome of a Rust computation that can `panic!`: either a value or a
panic carrying the panic message.  The crate never returns a typed
recoverable error; `panicked` models the unwinding abort
(`ratatui::restore(); panic!(..)`). -/
inductive PanicOr (α : Type) where
  | ok (a : α)
  | panicked (msg : String)
deriving Repr, DecidableEq

/-- `consts::ERROR_MESSAGE` from `src/predefined.rs`. -/
def ERROR_MESSAGE : String :=
  "\n╓───── IMPORTANT ─────╖\n║                     ║\n║ Use at least two    ║\n║ colors.             ║\n║                     ║\n║ If you want to use  ║\n║ a solid color,      ║\n║ enter the same      ║\n║ color more than once║\n║                     ║\n║ Example: Solid pink ║\n║                     ║\n║ ❌ [(250, 2, 238)]  ║\n║ ✅ [                ║\n║     (250, 2, 238),  ║\n║     (250, 2, 238),  ║\n║    ]                ║\n║                     ║\n╙─────────────────────╜\n"

/-- `GradientBlock::interpolate_color` (`src/gradient_block.rs:125`):
`t_pow_factor = t.powf(factor)`, `one_minus_t = 1.0 - t_pow_factor`, then
each channel is `(one_minus_t * start + t_pow_factor * end) as u8`.
`pw` abstracts `f32::powf`. -/
def interpolate_color (pw : ℚ → ℚ → ℚ) (start stop : RGB) (t factor : ℚ) :
    RGB :=
  let t_pow_factor := pw t factor
  let one_minus_t := 1 - t_pow_factor
  (toU8 (one_minus_t * start.1 + t_pow_factor * stop.1),
   toU8 (one_minus_t * start.2.1 + t_pow_factor * stop.2.1),
   toU8 (one_minus_t * start.2.2 + t_pow_factor * stop.2.2))

/-- One iteration of the character loop of
`GradientBlock::create_gradient_text`: resolve the color of character `c`
whose accumulated display width (widths of all preceding characters) is
`accumulated`, with `total` the total display width of the text. -/
def gradientCell (pw : ℚ → ℚ → ℚ) (colors : List RGB) (factor : ℚ)
    (total accumulated : ℕ) (c : Char) : Char × RGB :=
  let num_colors := colors.length
  let relative_pos : ℚ := (accumulated : ℚ) / (total : ℚ)
  let pos : ℚ := relative_pos * ((num_colors - 1 : ℕ) : ℚ)
  let section_index : ℕ := pos.floor.toNat
  let t : ℚ := pos - (section_index : ℚ)
  let next_color_index := min (section_index + 1) (num_colors - 1)
  (c, interpolate_color pw (colors.getD section_index (0, 0, 0))
        (colors.getD next_color_index (0, 0, 0)) t factor)

/-- The character loop of `create_gradient_text`, carrying the
`accumulated_width` state (the indexing `colors[section_index]` is total
here via `getD`; the in-bounds argument: `accumulated < total` forces
`section_index ≤ num_colors - 1`, matching the Rust code which never
observes an out-of-bounds index). -/
def gradientCells (pw : ℚ → ℚ → ℚ) (w : Char → ℕ) (colors : List RGB)
    (factor : ℚ) (total : ℕ) : ℕ → List Char → List (Char × RGB)
  | _, [] => []
  | accumulated, c :: cs =>
      gradientCell pw colors factor total accumulated c ::
        gradientCells pw w colors factor total (accumulated + w c) cs

/-- `GradientBlock::create_gradient_text` (`src/gradient_block.rs:195`):
with fewer than two colors it calls `ratatui::restore()` and
`panic!("{}", ERROR_MESSAGE)`; otherwise it styles each character of the
text with the interpolated color at its accumulated relative width. -/
def create_gradient_text (pw : ℚ → ℚ → ℚ) (w : Char → ℕ)
    (text : List Char) (colors : List RGB) (factor : ℚ) :
    PanicOr (List (Char × RGB)) :=
  if colors.length < 2 then .panicked ERROR_MESSAGE
  else
    .ok (gradientCells pw w colors factor ((text.map w).sum) 0 text)

/-- `Rat.floor` agrees with the `FloorRing` floor on `ℚ`. -/
theorem rat_floor_eq_intFloor (q : ℚ) : q.floor = ⌊q⌋ := by
  rw [Rat.floor_def', Rat.floor_def]

/-- Casting a `u8`-ranged natural through the rational model and back via
the saturating `as u8` cast is the identity. -/
theorem toU8_natCast (a : ℕ) (h : a < 256) : toU8 (a : ℚ) = a := by
  unfold toU8
  rw [if_neg (by simp)]
  rw [rat_floor_eq_intFloor, Int.floor_natCast]
  simp
  omega

/-- The loop of `create_gradient_text` produces one output cell per input
character, whatever the accumulated width state. -/
theorem gradientCells_length (pw : ℚ → ℚ → ℚ) (w : Char → ℕ)
    (colors : List RGB) (factor : ℚ) (total : ℕ) :
    ∀ (text : List Char) (acc : ℕ),
      (gradientCells pw w colors factor total acc text).length =
        text.length := by
  intro text
  induction text with
  | nil => intro acc; rfl
  | cons c cs ih => intro acc; simp [gradientCells, ih]

/-- The loop of `create_gradient_text` keeps the input characters in
order: projecting the styled cells back to characters recovers the text. -/
theorem gradientCells_map_fst (pw : ℚ → ℚ → ℚ) (w : Char → ℕ)
    (colors : List RGB) (factor : ℚ) (total : ℕ) :
    ∀ (text : List Char) (acc : ℕ),
      (gradientCells pw w colors factor total acc text).map Prod.fst =
        text := by
  intro text
  induction text with
  | nil => intro acc; rfl
  | cons c cs ih => intro acc; simp [gradientCells, gradientCell, ih]

/-- `ratatui::layout::Rect` (host framework): a rectangle in character
cells.  `u16` is modelled by `ℕ`; `saturating_sub` is `Nat` subtraction. -/
structure Rect where
  x : ℕ
  y : ℕ
  width : ℕ
  height : ℕ
deriving Repr, DecidableEq

def Rect.left (r : Rect) : ℕ := r.x

def Rect.right (r : Rect) : ℕ := r.x + r.width

def Rect.top (r : Rect) : ℕ := r.y

def Rect.bottom (r : Rect) : ℕ := r.y + r.height

/-- A named border glyph table of the host framework
(`ratatui::symbols::border::Set`), restricted to the eight fields this
crate reads. -/
structure RatatuiBorderSet where
  top_left : Char
  top_right : Char
  bottom_left : Char
  bottom_right : Char
  vertical_left : Char
  vertical_right : Char
  horizontal_top : Char
  horizontal_bottom : Char
deriving Repr, DecidableEq

/-- `ratatui::symbols::border::PLAIN` (the crate reads these through
`get_parsed_symbol!`, i.e. as single characters). -/
def PLAIN : RatatuiBorderSet :=
  ⟨'┌', '┐', '└', '┘', '│', '│', '─', '─'⟩

/-- `ratatui::symbols::border::DOUBLE`. -/
def DOUBLE : RatatuiBorderSet :=
  ⟨'╔', '╗', '╚', '╝', '║', '║', '═', '═'⟩

/-- `ratatui::symbols::border::THICK`. -/
def THICK : RatatuiBorderSet :=
  ⟨'┏', '┓', '┗', '┛', '┃', '┃', '━', '━'⟩

/-- `ratatui::symbols::border::ROUNDED`. -/
def ROUNDED : RatatuiBorderSet :=
  ⟨'╭', '╮', '╰', '╯', '│', '│', '─', '─'⟩

/-- `types::enums::MiscBorderTypes`. -/
inductive MiscBorderTypes where
  | Misc1
  | Misc2
  | Misc3
  | Misc4
deriving Repr, DecidableEq

/-- `types::enums::BorderStyle`. -/
inductive BorderStyle where
  | Plain
  | Double
  | Thick
  | Rounded
  | CustomBorderType
  | MiscBorder (t : MiscBorderTypes)
deriving Repr, DecidableEq

/-- `types::enums::GradientSegments`. -/
inductive GradientSegments where
  | Top
  | Bottom
  | Left
  | Right
  | TopHorizontalRightLn
  | TopHorizontalLeftLn
  | BottomHorizontalRightLn
  | BottomHorizontalLeftLn
  | TopVerticalRightLn
  | TopVerticalLeftLn
  | BottomVerticalRightLn
  | BottomVerticalLeftLn
deriving Repr, DecidableEq

/-- `ratatui::layout::Alignment` (host framework). -/
inductive Alignment where
  | Left
  | Center
  | Right
deriving Repr, DecidableEq

/-- `ratatui::widgets::block::title::Position` (host framework). -/
inductive Position where
  | Top
  | Bottom
deriving Repr, DecidableEq

/-- `types::structs::Gradient`: an ordered color list plus the blending
exponent. -/
structure Gradient where
  gradient_list : List RGB
  factor : ℚ
deriving Repr, DecidableEq

/-- `types::structs::Fill`. -/
structure Fill where
  fill_string : Option (List Char)
  gradient : Option Gradient
deriving Repr, DecidableEq

/-- `types::structs::Title`. -/
structure Title where
  title_text : List Char
  alignment : Alignment
  gradients : Option Gradient
deriving Repr, DecidableEq

/-- `types::structs::BorderSymbols`: the twenty optional palette
characters. -/
structure BorderSymbols where
  top_left : Option Char
  top_right : Option Char
  bottom_left : Option Char
  bottom_right : Option Char
  top_center : Option Char
  bottom_center : Option Char
  left_center : Option Char
  right_center : Option Char
  top_horizontal : Option Char
  left_vertical : Option Char
  bottom_horizontal : Option Char
  right_vertical : Option Char
  top_horizontal_right : Option Char
  bottom_horizontal_right : Option Char
  top_horizontal_left : Option Char
  bottom_horizontal_left : Option Char
  top_vertical_right : Option Char
  bottom_vertical_right : Option Char
  top_vertical_left : Option Char
  bottom_vertical_left : Option Char
deriving Repr, DecidableEq

/-- `types::structs::BorderSymbolSet`: a complete 12-glyph misc palette. -/
structure BorderSymbolSet where
  top_left : Char
  bottom_left : Char
  top_right : Char
  bottom_right : Char
  top : Char
  bottom : Char
  left : Char
  right : Char
  bottom_center : Char
  top_center : Char
  right_center : Char
  left_center : Char
deriving Repr, DecidableEq

/-- `border_styles::MISC1` (`src/predefined.rs`). -/
def MISC1 : BorderSymbolSet :=
  ⟨'+', '+', '+', '+', '=', '=', '|', '|', '=', '=', '|', '|'⟩

/-- `border_styles::MISC2` (`src/predefined.rs`). -/
def MISC2 : BorderSymbolSet :=
  ⟨'&', '&', '&', '&', '-', '-', '|', '|', '-', '-', '+', '+'⟩

/-- `border_styles::MISC3` (`src/predefined.rs`). -/
def MISC3 : BorderSymbolSet :=
  ⟨'╬', '╬', '╬', '╬', '═', '═', '║', '║', '═', '═', '║', '║'⟩

/-- `border_styles::MISC4` (`src/predefined.rs`). -/
def MISC4 : BorderSymbolSet :=
  ⟨'$', '$', '$', '$', '─', '─', '│', '│', '$', '~', '~', '~'⟩

/-- `types::structs::BorderSegment`. -/
structure BorderSegment where
  segment_text : List Char
  gradient : Gradient
  should_use_gradient : Bool
  should_be_rendered : Bool
  is_vertical : Bool
  x : ℕ
  y : ℕ
deriving Repr, DecidableEq

/-- `BorderSegment::new` (`src/types.rs:381`). -/
def BorderSegment.new (x y : ℕ) (is_vertical : Bool) : BorderSegment :=
  { segment_text := []
    gradient := { gradient_list := [], factor := 0 }
    should_use_gradient := false
    should_be_rendered := false
    is_vertical := is_vertical
    x := x
    y := y }

/-- `types::structs::BorderSegments`: the twelve segments. -/
structure BorderSegments where
  top_horizontal_left_ln : BorderSegment
  top_horizontal_right_ln : BorderSegment
  bottom_horizontal_left_ln : BorderSegment
  bottom_horizontal_right_ln : BorderSegment
  top_vertical_left_ln : BorderSegment
  top_vertical_right_ln : BorderSegment
  bottom_vertical_left_ln : BorderSegment
  bottom_vertical_right_ln : BorderSegment
  top_ln : BorderSegment
  bottom_ln : BorderSegment
  left_ln : BorderSegment
  right_ln : BorderSegment
deriving Repr, DecidableEq

/-- `BorderSegments::new` (`src/types.rs:408`): anchor positions for a
given area (note the source anchors the bottom half-verticals at
`(height + 1) / 2` in absolute coordinates, and the right horizontal
halves at `right() / 2`). -/
def BorderSegments.new (area : Rect) : BorderSegments :=
  { top_horizontal_left_ln := BorderSegment.new area.left area.top false
    top_horizontal_right_ln :=
      BorderSegment.new (area.right / 2) area.top false
    bottom_horizontal_left_ln :=
      BorderSegment.new area.left (area.bottom - 1) false
    bottom_horizontal_right_ln :=
      BorderSegment.new (area.right / 2) (area.bottom - 1) false
    top_vertical_left_ln := BorderSegment.new area.left area.top true
    top_vertical_right_ln :=
      BorderSegment.new (area.right - 1) area.top true
    bottom_vertical_left_ln :=
      BorderSegment.new area.left ((area.height + 1) / 2) true
    bottom_vertical_right_ln :=
      BorderSegment.new (area.right - 1) ((area.height + 1) / 2) true
    top_ln := BorderSegment.new area.left area.top false
    bottom_ln := BorderSegment.new area.left (area.bottom - 1) false
    left_ln := BorderSegment.new area.left area.top true
    right_ln := BorderSegment.new (area.right - 1) area.top true }

/-- `types::structs::SplitBorderSegments` (a `bitflags` u8; the four
flag bits as `Bool` fields). -/
structure SplitBorderSegments where
  left : Bool
  right : Bool
  top : Bool
  bottom : Bool
deriving Repr, DecidableEq

/-- The empty flag set (`SplitBorderSegments::empty()` / `NONE`). -/
def SplitBorderSegments.NONE : SplitBorderSegments :=
  ⟨false, false, false, false⟩

/-- `SplitBorderSegments::ALL`. -/
def SplitBorderSegments.ALL : SplitBorderSegments :=
  ⟨true, true, true, true⟩

/-- `SplitBorderSegments::TOP` alone. -/
def SplitBorderSegments.TOP : SplitBorderSegments :=
  ⟨false, false, true, false⟩

/-- `gradient_block::GradientBlock`. -/
structure GradientBlock where
  bordertype : BorderStyle
  fill : Fill
  top_titles : List Title
  bottom_titles : List Title
  border_symbols : BorderSymbols
  border_segments : BorderSegments
  split_segments : SplitBorderSegments
  area : Rect
deriving Repr, DecidableEq

/-- `GradientBlock::new` (`src/gradient_block.rs:59`): plain style, no
fill, no titles, all twenty symbols unset, segments anchored from the
area. -/
def GradientBlock.new (area : Rect)
    (split_segments : SplitBorderSegments) : GradientBlock :=
  { bordertype := .Plain
    fill := { fill_string := none, gradient := none }
    top_titles := []
    bottom_titles := []
    border_symbols :=
      { top_left := none, top_right := none, bottom_left := none
        bottom_right := none, top_center := none, bottom_center := none
        left_center := none, right_center := none
        bottom_horizontal := none, top_horizontal := none
        left_vertical := none, right_vertical := none
        top_horizontal_right := none, bottom_horizontal_right := none
        top_horizontal_left := none, bottom_horizontal_left := none
        top_vertical_right := none, bottom_vertical_right := none
        top_vertical_left := none, bottom_vertical_left := none }
    border_segments := BorderSegments.new area
    split_segments := split_segments
    area := area }

/-- The `create_segment!` macro of `src/macros.rs:15` without the
gradient wrap (the 7-argument use in `set_lns` stores the bare string):
`start`, `repeat1` copies of `middle1`, `middle2`, `repeat2` copies of
`middle3`, `end`. -/
def create_segment_full (start middle1 : Char) (repeat1 : ℕ)
    (middle2 middle3 : Char) (repeat2 : ℕ) (stop : Char) : List Char :=
  start :: (List.replicate repeat1 middle1 ++ [middle2] ++
    List.replicate repeat2 middle3 ++ [stop])

/-- Modelled from the spec: the 4-argument `create_segment!` use in
`set_lns` (the macro variant itself is not in `src/macros.rs`, which
only retains the 7-argument shape); per the macro's assembly order and
§4.2 ("a left half running from the top-left corner to the center
character"), it is `start`, `repeat` copies of `middle`, `end`. -/
def create_segment_half (start middle : Char) (rep : ℕ)
    (stop : Char) : List Char :=
  start :: (List.replicate rep middle ++ [stop])

/-- `GradientBlock::set_lns` (`src/gradientblockfunctions.rs:113`):
resolves the palette with its fallback chain (`get_symbol!` =
`Option::unwrap_or`), derives the repeat counts from the area, then
populates the segment texts and render flags branch by branch
(`TOP`/`BOTTOM`/`LEFT`/`RIGHT` splits, the `ALL` case, and the unsplit
`is_empty` case).  Note the source quirks kept here: the `BOTTOM` split
reuses `top_hor_left_rep`/`top_hor_right_rep`, the `RIGHT` split reuses
`top_vert_left_rep`/`bottom_vert_left_rep`, and the unsplit horizontal
lines use `bottom_hor_left_rep`/`bottom_hor_right_rep`. -/
def GradientBlock.set_lns (self : GradientBlock) : GradientBlock :=
  let border_symbols := self.border_symbols
  let area := self.area
  let top_horizontal := border_symbols.top_horizontal.getD PLAIN.horizontal_top
  let left_vertical := border_symbols.left_vertical.getD PLAIN.vertical_left
  let bottom_horizontal := border_symbols.bottom_horizontal.getD PLAIN.horizontal_top
  let right_vertical := border_symbols.right_vertical.getD PLAIN.vertical_right
  let top_center_char := border_symbols.top_center.getD top_horizontal
  let bottom_center_char := border_symbols.bottom_center.getD bottom_horizontal
  let left_center_char := border_symbols.left_center.getD left_vertical
  let right_center_char := border_symbols.right_center.getD right_vertical
  let top_right := border_symbols.top_right.getD PLAIN.top_right
  let top_left := border_symbols.top_left.getD PLAIN.top_left
  let bottom_right := border_symbols.bottom_right.getD PLAIN.bottom_right
  let bottom_left := border_symbols.bottom_left.getD PLAIN.bottom_left
  let top_horizontal_right := border_symbols.top_horizontal_right.getD top_horizontal
  let bottom_horizontal_right := border_symbols.bottom_horizontal_right.getD bottom_horizontal
  let top_horizontal_left := border_symbols.top_horizontal_left.getD top_horizontal
  let bottom_horizontal_left := border_symbols.bottom_horizontal_left.getD bottom_horizontal
  let top_vertical_right := border_symbols.top_vertical_right.getD right_vertical
  let bottom_vertical_right := border_symbols.bottom_vertical_right.getD right_vertical
  let top_vertical_left := border_symbols.top_vertical_left.getD left_vertical
  let bottom_vertical_left := border_symbols.bottom_vertical_left.getD left_vertical
  let top_hor_left_rep := (area.width - 1) / 2 - 1
  let top_hor_right_rep := (area.width - 1) / 2 - 2
  let bottom_hor_left_rep := (area.width + 1) / 2 - 1
  let bottom_hor_right_rep := area.width / 2 - 2
  let top_vert_left_rep := (area.height + 1) / 2 - 2
  let bottom_vert_left_rep := area.height / 2 - 1
  let s := self
  let s :=
    if self.split_segments.top then
      { s with border_segments := { s.border_segments with
          top_ln := { s.border_segments.top_ln with
            segment_text := [], should_be_rendered := false }
          top_horizontal_left_ln :=
            { s.border_segments.top_horizontal_left_ln with
              segment_text := create_segment_half top_left
                top_horizontal_left top_hor_left_rep top_center_char
              should_be_rendered := true }
          top_horizontal_right_ln :=
            { s.border_segments.top_horizontal_right_ln with
              segment_text := create_segment_half top_center_char
                top_horizontal_right top_hor_right_rep top_right
              should_be_rendered := true } } }
    else s
  let s :=
    if self.split_segments.bottom then
      { s with border_segments := { s.border_segments with
          bottom_ln := { s.border_segments.bottom_ln with
            segment_text := [], should_be_rendered := false }
          bottom_horizontal_left_ln :=
            { s.border_segments.bottom_horizontal_left_ln with
              segment_text := create_segment_half bottom_left
                bottom_horizontal_left top_hor_left_rep
                bottom_center_char
              should_be_rendered := true }
          bottom_horizontal_right_ln :=
            { s.border_segments.bottom_horizontal_right_ln with
              segment_text := create_segment_half bottom_center_char
                bottom_horizontal_right top_hor_right_rep bottom_right
              should_be_rendered := true } } }
    else s
  let s :=
    if self.split_segments.left then
      { s with border_segments := { s.border_segments with
          left_ln := { s.border_segments.left_ln with
            segment_text := [], should_be_rendered := false }
          top_vertical_left_ln :=
            { s.border_segments.top_vertical_left_ln with
              segment_text := create_segment_half top_left
                top_vertical_left top_vert_left_rep left_center_char
              should_be_rendered := true }
          bottom_vertical_left_ln :=
            { s.border_segments.bottom_vertical_left_ln with
              segment_text := create_segment_half left_center_char
                bottom_vertical_left bottom_vert_left_rep bottom_left
              should_be_rendered := true } } }
    else s
  let s :=
    if self.split_segments.right then
      { s with border_segments := { s.border_segments with
          right_ln := { s.border_segments.right_ln with
            segment_text := [], should_be_rendered := false }
          top_vertical_right_ln :=
            { s.border_segments.top_vertical_right_ln with
              segment_text := create_segment_half top_right
                top_vertical_right top_vert_left_rep right_center_char
              should_be_rendered := true }
          bottom_vertical_right_ln :=
            { s.border_segments.bottom_vertical_right_ln with
              segment_text := create_segment_half right_center_char
                bottom_vertical_right bottom_vert_left_rep bottom_right
              should_be_rendered := true } } }
    else s
  let s :=
    if self.split_segments = SplitBorderSegments.ALL then
      { s with border_segments := { s.border_segments with
          top_ln := { s.border_segments.top_ln with
            segment_text := [], should_be_rendered := false }
          bottom_ln := { s.border_segments.bottom_ln with
            segment_text := [], should_be_rendered := false }
          left_ln := { s.border_segments.left_ln with
            segment_text := [], should_be_rendered := false }
          right_ln := { s.border_segments.right_ln with
            segment_text := [], should_be_rendered := false } } }
    else s
  let s :=
    if self.split_segments = SplitBorderSegments.NONE then
      { s with border_segments := { s.border_segments with
          top_horizontal_left_ln :=
            { s.border_segments.top_horizontal_left_ln with
              segment_text := [], should_be_rendered := false }
          top_horizontal_right_ln :=
            { s.border_segments.top_horizontal_right_ln with
              segment_text := [], should_be_rendered := false }
          bottom_horizontal_left_ln :=
            { s.border_segments.bottom_horizontal_left_ln with
              segment_text := [], should_be_rendered := false }
          bottom_horizontal_right_ln :=
            { s.border_segments.bottom_horizontal_right_ln with
              segment_text := [], should_be_rendered := false }
          top_ln := { s.border_segments.top_ln with
            segment_text := create_segment_full top_left
              top_horizontal_left bottom_hor_left_rep top_center_char
              top_horizontal_right bottom_hor_right_rep top_right
            should_be_rendered := true }
          bottom_ln := { s.border_segments.bottom_ln with
            segment_text := create_segment_full bottom_left
              bottom_horizontal_left bottom_hor_left_rep
              bottom_center_char bottom_horizontal_right
              bottom_hor_right_rep bottom_right
            should_be_rendered := true }
          left_ln := { s.border_segments.left_ln with
            segment_text := create_segment_full top_left
              top_vertical_left top_vert_left_rep left_center_char
              bottom_vertical_left bottom_vert_left_rep bottom_left
            should_be_rendered := true }
          right_ln := { s.border_segments.right_ln with
            segment_text := create_segment_full top_right
              top_vertical_right top_vert_left_rep right_center_char
              bottom_vertical_right bottom_vert_left_rep bottom_right
            should_be_rendered := true } } }
    else s
  s

/-- `GradientBlock::set_border_style` (`src/gradientblockfunctions.rs:399`):
a named built-in style or a misc palette overwrites the four corners,
the four edge-fill characters and the four center characters (twelve
fields); `CustomBorderType` changes no symbol; the eight sub-edge
override fields are never touched.  The `bordertype` field is always
set to the selected style. -/
def GradientBlock.set_border_style (self : GradientBlock)
    (style : BorderStyle) : GradientBlock :=
  let s :=
    match style with
    | .CustomBorderType => self
    | .MiscBorder t =>
        let miscborder :=
          match t with
          | .Misc1 => MISC1
          | .Misc2 => MISC2
          | .Misc3 => MISC3
          | .Misc4 => MISC4
        { self with border_symbols := { self.border_symbols with
            top_left := some miscborder.top_left
            bottom_left := some miscborder.bottom_left
            top_right := some miscborder.top_right
            bottom_right := some miscborder.bottom_right
            top_horizontal := some miscborder.top
            bottom_horizontal := some miscborder.bottom
            left_vertical := some miscborder.left
            right_vertical := some miscborder.right
            bottom_center := some miscborder.bottom_center
            top_center := some miscborder.top_center
            right_center := some miscborder.right_center
            left_center := some miscborder.left_center } }
    | regborder =>
        let reg :=
          match regborder with
          | .Plain => PLAIN
          | .Double => DOUBLE
          | .Thick => THICK
          | .Rounded => ROUNDED
          | _ => PLAIN
        { self with border_symbols := { self.border_symbols with
            top_left := some reg.top_left
            bottom_left := some reg.bottom_left
            top_right := some reg.top_right
            bottom_right := some reg.bottom_right
            top_horizontal := some reg.horizontal_top
            bottom_horizontal := some reg.horizontal_bottom
            left_vertical := some reg.vertical_left
            right_vertical := some reg.vertical_right
            bottom_center := some reg.horizontal_bottom
            top_center := some reg.horizontal_top
            right_center := some reg.vertical_right
            left_center := some reg.vertical_left } }
  { s with bordertype := style }

/-- One iteration of the `for (segment, gradient) in rgblist` loop of
`GradientBlock::gradients` (`src/gradientblockfunctions.rs:12`): the
named segment's `gradient` and `should_use_gradient` fields are set,
nothing else. -/
def updateSegmentGradient (bs : BorderSegments)
    (segment : GradientSegments) (gradient_data : Gradient) :
    BorderSegments :=
  match segment with
  | .Left => { bs with left_ln := { bs.left_ln with
      gradient := gradient_data, should_use_gradient := true } }
  | .Right => { bs with right_ln := { bs.right_ln with
      gradient := gradient_data, should_use_gradient := true } }
  | .TopHorizontalLeftLn => { bs with top_horizontal_left_ln :=
      { bs.top_horizontal_left_ln with
        gradient := gradient_data, should_use_gradient := true } }
  | .TopHorizontalRightLn => { bs with top_horizontal_right_ln :=
      { bs.top_horizontal_right_ln with
        gradient := gradient_data, should_use_gradient := true } }
  | .BottomHorizontalLeftLn => { bs with bottom_horizontal_left_ln :=
      { bs.bottom_horizontal_left_ln with
        gradient := gradient_data, should_use_gradient := true } }
  | .BottomHorizontalRightLn => { bs with bottom_horizontal_right_ln :=
      { bs.bottom_horizontal_right_ln with
        gradient := gradient_data, should_use_gradient := true } }
  | .TopVerticalLeftLn => { bs with top_vertical_left_ln :=
      { bs.top_vertical_left_ln with
        gradient := gradient_data, should_use_gradient := true } }
  | .TopVerticalRightLn => { bs with top_vertical_right_ln :=
      { bs.top_vertical_right_ln with
        gradient := gradient_data, should_use_gradient := true } }
  | .BottomVerticalLeftLn => { bs with bottom_vertical_left_ln :=
      { bs.bottom_vertical_left_ln with
        gradient := gradient_data, should_use_gradient := true } }
  | .BottomVerticalRightLn => { bs with bottom_vertical_right_ln :=
      { bs.bottom_vertical_right_ln with
        gradient := gradient_data, should_use_gradient := true } }
  | .Top => { bs with top_ln := { bs.top_ln with
      gradient := gradient_data, should_use_gradient := true } }
  | .Bottom => { bs with bottom_ln := { bs.bottom_ln with
      gradient := gradient_data, should_use_gradient := true } }

/-- `GradientBlock::gradients` (`src/gradientblockfunctions.rs:12`):
apply each `(segment, gradient)` pair of the list in order. -/
def GradientBlock.gradients (self : GradientBlock) :
    List (GradientSegments × Gradient) → GradientBlock
  | [] => self
  | (segment, gradient) :: rest =>
      GradientBlock.gradients
        { self with border_segments :=
            updateSegmentGradient self.border_segments segment gradient }
        rest

/-- Projection of the twelve `BorderSegments` fields through the
`GradientSegments` enum (the field the `gradients` loop matches each
enum value to). -/
def getSeg (bs : BorderSegments) : GradientSegments → BorderSegment
  | .Top => bs.top_ln
  | .Bottom => bs.bottom_ln
  | .Left => bs.left_ln
  | .Right => bs.right_ln
  | .TopHorizontalRightLn => bs.top_horizontal_right_ln
  | .TopHorizontalLeftLn => bs.top_horizontal_left_ln
  | .BottomHorizontalRightLn => bs.bottom_horizontal_right_ln
  | .BottomHorizontalLeftLn => bs.bottom_horizontal_left_ln
  | .TopVerticalRightLn => bs.top_vertical_right_ln
  | .TopVerticalLeftLn => bs.top_vertical_left_ln
  | .BottomVerticalRightLn => bs.bottom_vertical_right_ln
  | .BottomVerticalLeftLn => bs.bottom_vertical_left_ln

/-- `types::enums::TitleDirection`. -/
inductive TitleDirection where
  | Top
  | Bottom
deriving Repr, DecidableEq

/-- A styled single-character cell fragment (`ratatui::text::Span` as
produced by this crate: one character plus an optional RGB foreground). -/
abbrev Span := Char × Option RGB

/-- The host cell buffer, modelled as a write log (newest write first);
the host's clipping to the buffer area is out of scope, the grid is
unbounded. -/
abbrev Buffer := List ((ℕ × ℕ) × Span)

/-- Latest write at a position, if any (last-write-wins). -/
def getCell (buf : Buffer) (p : ℕ × ℕ) : Option Span :=
  List.lookup p buf

/-- Write a run of single-cell spans starting at `(x, y)`, advancing one
column per span when horizontal and one row per span when vertical
(`Buffer::set_line` / the `set_vertical_line!` loop of per-cell
`set_span` calls). -/
def writeRun (vertical : Bool) : ℕ → ℕ → List Span → Buffer → Buffer
  | _, _, [], buf => buf
  | x, y, s :: rest, buf =>
      writeRun vertical (if vertical then x else x + 1)
        (if vertical then y + 1 else y) rest (((x, y), s) :: buf)

/-- `ratatui::text::Line` as the crate uses it: a list of spans plus the
line's own optional alignment. -/
structure Line where
  spans : List Span
  alignment : Option Alignment
deriving Repr, DecidableEq

/-- `get_aligned_position!` (`src/macros.rs:110`): the horizontal anchor
for a text of length `text_len` under the given alignment; `Right` and
`Center` use saturating subtraction. -/
def get_aligned_position (area : Rect) (alignment : Option Alignment)
    (text_len : ℕ) : ℕ :=
  match alignment with
  | some .Left => area.left
  | some .Right => area.right - text_len
  | some .Center => (area.left + area.width / 2) - text_len / 2
  | none => area.left

/-- `handle_title_logic!` (`src/macros.rs:129`): for each `(title, pos)`
pair the anchor is computed from the title's alignment with
`text_len = title.spans.len() + 1`, the row is the area's top or bottom
row, and the title is written with max width `title.spans.len() + 1`
(each span here is one cell, so the budget never truncates). -/
def handle_title_logic (titles : List (Line × Position)) (area : Rect)
    (buf : Buffer) : Buffer :=
  titles.foldl
    (fun b tp =>
      let x := get_aligned_position area tp.1.alignment
        (tp.1.spans.length + 1)
      let y :=
        match tp.2 with
        | .Top => area.top
        | .Bottom => area.bottom
      writeRun false x y (tp.1.spans.take (tp.1.spans.length + 1)) b)
    buf

/-- The spec's §4.3 formula for the `Center` horizontal anchor, written
from the spec's words for comparison with the code:
`area.left + area.width/2 − text_width/2` (saturating). -/
def claimed_center_anchor (area : Rect) (text_width : ℕ) : ℕ :=
  (area.left + area.width / 2) - text_width / 2

/-- `check_gradient!`: resolve a segment's spans: with
`should_use_gradient` the text goes through `create_gradient_text`
(which can panic); otherwise the literal characters are used with no
color override.  (Modelled from the spec for the plain branch: the
retained macro in `src/macros.rs` addresses the older `Line`-typed
segment text; §4.2: "otherwise the literal palette characters are
written with no color override", one character per cell.) -/
def check_gradient (pw : ℚ → ℚ → ℚ) (w : Char → ℕ)
    (ln : BorderSegment) : PanicOr (List Span) :=
  if ln.should_use_gradient then
    match create_gradient_text pw w ln.segment_text
        ln.gradient.gradient_list ln.gradient.factor with
    | .panicked m => .panicked m
    | .ok cells => .ok (cells.map (fun cr => (cr.1, some cr.2)))
  else .ok (ln.segment_text.map (fun c => (c, none)))

/-- Write one segment's resolved spans: vertical segments one character
per row (`set_vertical_line!`), horizontal segments as one line whose
max-width budget is the segment text's display width (`set_line!`, which
passes `segment_text.width()`). -/
def write_segment_spans (w : Char → ℕ) (ln : BorderSegment)
    (spans : List Span) (buf : Buffer) : Buffer :=
  if ln.is_vertical then writeRun true ln.x ln.y spans buf
  else writeRun false ln.x ln.y
    (spans.take ((ln.segment_text.map w).sum)) buf

/-- `handle_line_logic!`: resolve the spans (possibly panicking) and
write them; a panic happens before any cell of this segment is
written. -/
def handle_line_logic (pw : ℚ → ℚ → ℚ) (w : Char → ℕ)
    (ln : BorderSegment) (buf : Buffer) : PanicOr Buffer :=
  match check_gradient pw w ln with
  | .panicked m => .panicked m
  | .ok used_ln => .ok (write_segment_spans w ln used_ln buf)

/-- One entry of the `render_block` dispatch table: skip segments with
`should_be_rendered == false`; once a panic has occurred the unwinding
skips everything after it, leaving the buffer as it was at the panic. -/
def renderStep (pw : ℚ → ℚ → ℚ) (w : Char → ℕ)
    (st : Buffer × Option String) (ln : BorderSegment) :
    Buffer × Option String :=
  match st with
  | (buf, some m) => (buf, some m)
  | (buf, none) =>
      if ln.should_be_rendered then
        match handle_line_logic pw w ln buf with
        | .ok buf2 => (buf2, none)
        | .panicked m => (buf, some m)
      else (buf, none)

/-- The fixed dispatch order of `GradientBlock::render_block`
(`src/gradient_block.rs:703`). -/
def segmentsInRenderOrder (gb : GradientBlock) : List BorderSegment :=
  [gb.border_segments.left_ln,
   gb.border_segments.right_ln,
   gb.border_segments.top_ln,
   gb.border_segments.bottom_ln,
   gb.border_segments.top_horizontal_left_ln,
   gb.border_segments.top_horizontal_right_ln,
   gb.border_segments.bottom_vertical_left_ln,
   gb.border_segments.bottom_vertical_right_ln,
   gb.border_segments.bottom_horizontal_left_ln,
   gb.border_segments.bottom_horizontal_right_ln,
   gb.border_segments.top_vertical_left_ln,
   gb.border_segments.top_vertical_right_ln]

/-- `GradientBlock::render_block`: render the enabled segments in the
fixed order, stopping at the first panic (whose message is returned with
the buffer as already written). -/
def render_block (pw : ℚ → ℚ → ℚ) (w : Char → ℕ) (gb : GradientBlock)
    (buf : Buffer) : Buffer × Option String :=
  (segmentsInRenderOrder gb).foldl (renderStep pw w) (buf, none)

/-- Resolve one title's spans (`Modelled from the spec:` the 4-argument
`handle_title_logic!` used by `GradientBlock::main` is not in
`src/macros.rs`; per §4.3 and the retained 3-argument macro, a gradient
title goes through `create_gradient_text` — which can panic — and a
plain title is written with no color override). -/
def title_spans (pw : ℚ → ℚ → ℚ) (w : Char → ℕ) (t : Title) :
    PanicOr (List Span) :=
  match t.gradients with
  | some g =>
      match create_gradient_text pw w t.title_text
          g.gradient_list g.factor with
      | .panicked m => .panicked m
      | .ok cells => .ok (cells.map (fun cr => (cr.1, some cr.2)))
  | none => .ok (t.title_text.map (fun c => (c, none)))

/-- One title of `render_top_titles` / `render_bottom_titles`:
anchored per `get_aligned_position` with `text_len = span count + 1`,
on the area's top or bottom row. -/
def titleStep (pw : ℚ → ℚ → ℚ) (w : Char → ℕ) (dir : TitleDirection)
    (area : Rect) (st : Buffer × Option String) (t : Title) :
    Buffer × Option String :=
  match st with
  | (buf, some m) => (buf, some m)
  | (buf, none) =>
      match title_spans pw w t with
      | .panicked m => (buf, some m)
      | .ok spans =>
          let x := get_aligned_position area (some t.alignment)
            (spans.length + 1)
          let y :=
            match dir with
            | .Top => area.top
            | .Bottom => area.bottom
          (writeRun false x y spans buf, none)

/-- All titles of one edge, in order, stopping at the first panic. -/
def render_titles (pw : ℚ → ℚ → ℚ) (w : Char → ℕ)
    (titles : List Title) (dir : TitleDirection) (area : Rect)
    (buf : Buffer) : Buffer × Option String :=
  titles.foldl (titleStep pw w dir area) (buf, none)

/-- `GradientBlock::render_fill` (`Modelled from the spec:` the
5-argument `handle_fill!` it invokes is not in `src/macros.rs`; per
§4.4 the fill string is repeated with the cell budget
`area.height * area.width`, a gradient fill goes through
`create_gradient_text`, and the actual paragraph layout is the host's —
abstracted as the `host` parameter). -/
def render_fill (pw : ℚ → ℚ → ℚ) (w : Char → ℕ)
    (host : List Span → Rect → Buffer → Buffer) (fill : Fill)
    (area : Rect) (buf : Buffer) : Buffer × Option String :=
  match fill.fill_string with
  | none => (buf, none)
  | some s =>
      let repeated := (List.replicate (area.height * area.width) s).flatten
      match fill.gradient with
      | some g =>
          match create_gradient_text pw w repeated
              g.gradient_list g.factor with
          | .panicked m => (buf, some m)
          | .ok cells =>
              (host (cells.map (fun cr => (cr.1, some cr.2))) area buf,
               none)
      | none =>
          (host (repeated.map (fun c => (c, none))) area buf, none)

/-- `GradientBlock::main` (`src/gradient_block.rs:1131`): fill first
(only when a fill string is set), then the border segments, then the
top and bottom titles; a panic anywhere unwinds immediately, leaving
all earlier writes in the buffer. -/
def GradientBlock.main (pw : ℚ → ℚ → ℚ) (w : Char → ℕ)
    (host : List Span → Rect → Buffer → Buffer) (gb : GradientBlock)
    (area : Rect) (buf : Buffer) : Buffer × Option String :=
  let st0 :=
    if gb.fill.fill_string.isSome then
      render_fill pw w host gb.fill area buf
    else (buf, none)
  match st0 with
  | (b, some m) => (b, some m)
  | (b, none) =>
      match render_block pw w gb b with
      | (b2, some m) => (b2, some m)
      | (b2, none) =>
          match render_titles pw w gb.top_titles .Top area b2 with
          | (b3, some m) => (b3, some m)
          | (b3, none) =>
              render_titles pw w gb.bottom_titles .Bottom area b3

/-- The claim's notion of "the two fill runs as equal in length as
possible": their lengths differ by at most one. -/
def fill_runs_as_equal_as_possible (k1 k2 : ℕ) : Prop :=
  k1 = k2 ∨ k1 = k2 + 1 ∨ k2 = k1 + 1

instance (k1 k2 : ℕ) : Decidable (fill_runs_as_equal_as_possible k1 k2) := by
  unfold fill_runs_as_equal_as_possible
  infer_instance

/-- The twelve-glyph table `set_border_style` draws from, per named
style: the two source match arms (`MiscBorder` reads the `BorderSymbolSet`
constants, the other named styles read the ratatui border set, mapping
`top`/`bottom` to `horizontal_top`/`horizontal_bottom`, `left`/`right`
to `vertical_left`/`vertical_right`, and the four centers to the same
edge-fill glyphs). -/
def style_symbol_table (style : BorderStyle) : BorderSymbolSet :=
  match style with
  | .MiscBorder t =>
      match t with
      | .Misc1 => MISC1
      | .Misc2 => MISC2
      | .Misc3 => MISC3
      | .Misc4 => MISC4
  | st =>
      let reg :=
        match st with
        | .Plain => PLAIN
        | .Double => DOUBLE
        | .Thick => THICK
        | .Rounded => ROUNDED
        | _ => PLAIN
      { top_left := reg.top_left
        bottom_left := reg.bottom_left
        top_right := reg.top_right
        bottom_right := reg.bottom_right
        top := reg.horizontal_top
        bottom := reg.horizontal_bottom
        left := reg.vertical_left
        right := reg.vertical_right
        bottom_center := reg.horizontal_bottom
        top_center := reg.horizontal_top
        right_center := reg.vertical_right
        left_center := reg.vertical_left }

theorem create_segment_full_length (start m1 : Char) (k1 : ℕ)
    (m2 m3 : Char) (k2 : ℕ) (stop : Char) :
    (create_segment_full start m1 k1 m2 m3 k2 stop).length =
      k1 + k2 + 3 := by
  simp [create_segment_full]
  omega

theorem create_segment_full_head (start m1 : Char) (k1 : ℕ)
    (m2 m3 : Char) (k2 : ℕ) (stop : Char) :
    (create_segment_full start m1 k1 m2 m3 k2 stop).head? =
      some start := by
  rfl

theorem create_segment_full_getLast (start m1 : Char) (k1 : ℕ)
    (m2 m3 : Char) (k2 : ℕ) (stop : Char) :
    (create_segment_full start m1 k1 m2 m3 k2 stop).getLast? =
      some stop := by
  have h : create_segment_full start m1 k1 m2 m3 k2 stop =
      (start :: (List.replicate k1 m1 ++ [m2] ++
        List.replicate k2 m3)) ++ [stop] := by
    simp [create_segment_full]
  rw [h, List.getLast?_concat]

end TGB

open TGB

/-- Claim C3: for every gradient spec with at least two colors and every
input text (any character-width assignment `w` and any `powf` model
`pw`), `create_gradient_text` succeeds and returns exactly one styled
cell per character of the text, in order; in particular it returns the
empty sequence for the empty text, with no error. -/
theorem claim_C3_gradient_length_law (pw : ℚ → ℚ → ℚ) (w : Char → ℕ)
    (text : List Char) (colors : List RGB) (factor : ℚ)
    (h : 2 ≤ colors.length) :
    ∃ cells : List (Char × RGB),
      create_gradient_text pw w text colors factor = .ok cells ∧
      cells.length = text.length ∧
      cells.map Prod.fst = text ∧
      (text = [] → cells = []) := by
  refine ⟨gradientCells pw w colors factor ((text.map w).sum) 0 text,
    ?_, ?_, ?_, ?_⟩
  · unfold create_gradient_text
    rw [if_neg (by omega)]
  · exact gradientCells_length pw w colors factor _ text 0
  · exact gradientCells_map_fst pw w colors factor _ text 0
  · intro h0; subst h0; rfl

/-- Witness for C3 at a concrete input: the two-color gradient over the
three-character text "ABC" resolves to three cells spelling "ABC". -/
theorem claim_C3_witness :
    2 ≤ ([(255, 0, 0), (0, 0, 255)] : List RGB).length ∧
    ∃ cells : List (Char × RGB),
      create_gradient_text (fun t _ => t) (fun _ => 1)
        ['A', 'B', 'C'] [(255, 0, 0), (0, 0, 255)] 1 = .ok cells ∧
      cells.length = (['A', 'B', 'C'] : List Char).length ∧
      cells.map Prod.fst = ['A', 'B', 'C'] ∧
      (['A', 'B', 'C'] = ([] : List Char) → cells = []) :=
  ⟨by decide,
   claim_C3_gradient_length_law (fun t _ => t) (fun _ => 1)
     ['A', 'B', 'C'] [(255, 0, 0), (0, 0, 255)] 1 (by decide)⟩

/-- Claim C1, counterexample: resolving a one-color gradient at render
time does fail for every text, but not as the claim states: the outcome
at the concrete input (text "A", colors `[(10,10,10)]`) is
`PanicOr.panicked ERROR_MESSAGE`, the model of the source's
`ratatui::restore(); panic!("{}", ERROR_MESSAGE)` — an unwinding abort
of the render pass that tears the terminal session down, not a typed
recoverable error value (the crate's API has no error type at all: the
function returns a bare `Vec<Span>`).  This contradicts the claim's
"surfaced to the caller as a recoverable result (a typed error return),
not ... an unrecoverable process abort". -/
theorem claim_C1_counterexample :
    create_gradient_text (fun t _ => t) (fun _ => 1) ['A']
      [(10, 10, 10)] 1 = .panicked ERROR_MESSAGE := by
  rfl

/-- Claim C1, amended: for every gradient whose color list has fewer than
two colors, resolving the gradient (`create_gradient_text`, run at render
time) fails for every input text with the `InsufficientColors` message
`ERROR_MESSAGE` — but the failure is a panic raised after restoring the
terminal (an abort of the rendering process), not a typed recoverable
error return. -/
theorem claim_C1_amended (pw : ℚ → ℚ → ℚ) (w : Char → ℕ)
    (text : List Char) (colors : List RGB) (factor : ℚ)
    (h : colors.length < 2) :
    create_gradient_text pw w text colors factor =
      .panicked ERROR_MESSAGE := by
  unfold create_gradient_text
  rw [if_pos h]

/-- Claim C4, counterexample: resolving `{colors:[Red,Blue], factor:1.0}`
over "ABC" (all three characters of display width 1, `powf` at factor 1
being the identity, exactly as IEEE-754 guarantees) gives cell 2 the
color `(85,0,170)`, not Blue `(0,0,255)`: the relative position of a cell
is its accumulated width BEFORE the cell over the total width (0, 1/3 and
2/3 here), so the last cell never reaches the final color, and cell 1 is
the blend at t = 1/3 — `(170,0,85)` — not the midpoint `(128,0,128)`.
The model computes in exact rationals; `f32` rounding can move each
channel by at most one, nowhere near the claimed values. -/
theorem claim_C4_counterexample :
    create_gradient_text (fun t _ => t) (fun _ => 1) ['A', 'B', 'C']
        [(255, 0, 0), (0, 0, 255)] 1 =
      .ok [('A', (255, 0, 0)), ('B', (170, 0, 85)), ('C', (85, 0, 170))] ∧
    ((85, 0, 170) : RGB) ≠ ((0, 0, 255) : RGB) ∧
    ((170, 0, 85) : RGB) ≠ ((128, 0, 128) : RGB) := by
  refine ⟨?_, by decide, by decide⟩
  simp only [create_gradient_text, gradientCells, gradientCell,
    interpolate_color, toU8, rat_floor_eq_intFloor]
  norm_num [Int.floor_eq_iff]
  decide

/-- Claim C4, amended: for any `powf` model that is the identity at
factor 1 (as IEEE-754 `powf` is) and with 'A','B','C' of display width 1,
resolving the two-color gradient `[Red, Blue]` with factor 1 over "ABC"
assigns cell 0 the color Red `(255,0,0)` exactly, cell 1 the blend at
t = 1/3, `(170,0,85)`, and cell 2 the blend at t = 2/3, `(85,0,170)`
(cell positions are accumulated-width-before-cell over total width, so
the final cell does not reach Blue). -/
theorem claim_C4_amended (pw : ℚ → ℚ → ℚ) (w : Char → ℕ)
    (hpw : ∀ t : ℚ, pw t 1 = t)
    (hA : w 'A' = 1) (hB : w 'B' = 1) (hC : w 'C' = 1) :
    create_gradient_text pw w ['A', 'B', 'C']
        [(255, 0, 0), (0, 0, 255)] 1 =
      .ok [('A', (255, 0, 0)), ('B', (170, 0, 85)),
           ('C', (85, 0, 170))] := by
  simp only [create_gradient_text, gradientCells, gradientCell,
    interpolate_color, List.map_cons, List.map_nil, hA, hB, hC]
  simp only [hpw, toU8, rat_floor_eq_intFloor]
  norm_num [Int.floor_eq_iff]
  decide

/-- Witness for the amended C4 at the concrete `powf`/width models. -/
theorem claim_C4_witness :
    (∀ t : ℚ, (fun (t : ℚ) (_ : ℚ) => t) t 1 = t) ∧
    create_gradient_text (fun t _ => t) (fun _ => 1) ['A', 'B', 'C']
        [(255, 0, 0), (0, 0, 255)] 1 =
      .ok [('A', (255, 0, 0)), ('B', (170, 0, 85)),
           ('C', (85, 0, 170))] :=
  ⟨fun _ => rfl,
   claim_C4_amended (fun t _ => t) (fun _ => 1) (fun _ => rfl)
     rfl rfl rfl⟩

/-- Claim C5: for all 8-bit colors `A`, `B` and every factor `f > 0`,
`interpolate_color A B 0 f = A` and `interpolate_color A B 1 f = B` —
exactly (so in particular within the claim's ±1 rounding tolerance).
The `powf` model is assumed to satisfy the identities IEEE-754 `powf`
satisfies exactly: `powf 0 f = 0` for `f > 0` and `powf 1 f = 1`; the
remaining arithmetic (`1-0`, `1*channel + 0*channel` and the `as u8`
cast of an integral value) is exact in `f32` as well. -/
theorem claim_C5_interpolation_boundary_law (pw : ℚ → ℚ → ℚ)
    (A B : RGB) (f : ℚ)
    (hA1 : A.1 < 256) (hA2 : A.2.1 < 256) (hA3 : A.2.2 < 256)
    (hB1 : B.1 < 256) (hB2 : B.2.1 < 256) (hB3 : B.2.2 < 256)
    (_hf : 0 < f) (hpw0 : pw 0 f = 0) (hpw1 : pw 1 f = 1) :
    interpolate_color pw A B 0 f = A ∧
    interpolate_color pw A B 1 f = B := by
  obtain ⟨a1, a2, a3⟩ := A
  obtain ⟨b1, b2, b3⟩ := B
  constructor
  · simp only [interpolate_color, hpw0]
    norm_num
    exact ⟨toU8_natCast a1 hA1, toU8_natCast a2 hA2, toU8_natCast a3 hA3⟩
  · simp only [interpolate_color, hpw1]
    norm_num
    exact ⟨toU8_natCast b1 hB1, toU8_natCast b2 hB2, toU8_natCast b3 hB3⟩

/-- Witness for C5 at the concrete colors Red and Blue with factor 2
(taking `pw` to be the real power function restricted to rationals on
the needed inputs: `fun t f => if t = 0 then 0 else if t = 1 then 1
else t` satisfies the two IEEE identities used). -/
theorem claim_C5_witness :
    interpolate_color
        (fun t _ => if t = 0 then 0 else if t = 1 then 1 else t)
        (255, 0, 0) (0, 0, 255) 0 2 = (255, 0, 0) ∧
    interpolate_color
        (fun t _ => if t = 0 then 0 else if t = 1 then 1 else t)
        (255, 0, 0) (0, 0, 255) 1 2 = (0, 0, 255) :=
  claim_C5_interpolation_boundary_law
    (fun t _ => if t = 0 then 0 else if t = 1 then 1 else t)
    (255, 0, 0) (0, 0, 255) 2
    (by norm_num) (by norm_num) (by norm_num)
    (by norm_num) (by norm_num) (by norm_num)
    (by norm_num) (by norm_num) (by norm_num)

/-- A concrete block exposing the top edge's two fill runs with distinct
characters: fill-before-center 'a', center 'c', fill-after-center 'b',
on an area of width 5 (edge span L = 5). -/
def C6_cex_block : GradientBlock :=
  let base := GradientBlock.new (Rect.mk 0 0 5 5) SplitBorderSegments.NONE
  { base with border_symbols := { base.border_symbols with
      top_horizontal_left := some 'a'
      top_center := some 'c'
      top_horizontal_right := some 'b' } }

/-- Claim C6, counterexample: on an area of width 5 (no splits), the top
segment synthesized by `set_lines` is `┌aac┐` — the run before the
center has 2 characters and the run after it has 0, which is not "as
equal as possible" (1 and 1 is possible for the same total).  The repeat
counts are `(L+1)/2 - 1` and `L/2 - 2`, which differ by 2 whenever the
edge span `L` is odd. -/
theorem claim_C6_counterexample :
    (C6_cex_block.set_lns).border_segments.top_ln.segment_text =
      ['┌', 'a', 'a', 'c', '┐'] ∧
    (C6_cex_block.set_lns).border_segments.top_ln.segment_text =
      create_segment_full '┌' 'a' 2 'c' 'b' 0 '┐' ∧
    ¬ fill_runs_as_equal_as_possible 2 0 := by
  refine ⟨by decide, by decide, by decide⟩

/-- Claim C6, amended: for an unsplit block whose edge spans are at
least 4, every primary segment text has exactly the edge's span many
characters and starts and ends with that edge's two corner glyphs; the
two fill runs of a vertical edge differ by at most one, but the two
fill runs of a horizontal edge are `(L+1)/2 - 1` and `L/2 - 2`, which
differ by 1 for even spans and by 2 for odd spans (so they are NOT
always as equal as possible). -/
theorem claim_C6_amended (gb : GradientBlock)
    (hsplit : gb.split_segments = SplitBorderSegments.NONE)
    (hw : 4 ≤ gb.area.width) (hh : 4 ≤ gb.area.height) :
    ((gb.set_lns).border_segments.top_ln.segment_text.length =
        gb.area.width ∧
      (gb.set_lns).border_segments.top_ln.segment_text.head? =
        some (gb.border_symbols.top_left.getD PLAIN.top_left) ∧
      (gb.set_lns).border_segments.top_ln.segment_text.getLast? =
        some (gb.border_symbols.top_right.getD PLAIN.top_right)) ∧
    ((gb.set_lns).border_segments.bottom_ln.segment_text.length =
        gb.area.width ∧
      (gb.set_lns).border_segments.bottom_ln.segment_text.head? =
        some (gb.border_symbols.bottom_left.getD PLAIN.bottom_left) ∧
      (gb.set_lns).border_segments.bottom_ln.segment_text.getLast? =
        some (gb.border_symbols.bottom_right.getD PLAIN.bottom_right)) ∧
    ((gb.set_lns).border_segments.left_ln.segment_text.length =
        gb.area.height ∧
      (gb.set_lns).border_segments.left_ln.segment_text.head? =
        some (gb.border_symbols.top_left.getD PLAIN.top_left) ∧
      (gb.set_lns).border_segments.left_ln.segment_text.getLast? =
        some (gb.border_symbols.bottom_left.getD PLAIN.bottom_left)) ∧
    ((gb.set_lns).border_segments.right_ln.segment_text.length =
        gb.area.height ∧
      (gb.set_lns).border_segments.right_ln.segment_text.head? =
        some (gb.border_symbols.top_right.getD PLAIN.top_right) ∧
      (gb.set_lns).border_segments.right_ln.segment_text.getLast? =
        some (gb.border_symbols.bottom_right.getD PLAIN.bottom_right)) ∧
    (((gb.area.width + 1) / 2 - 1) + (gb.area.width / 2 - 2) =
        gb.area.width - 3 ∧
      (gb.area.width % 2 = 0 →
        (gb.area.width + 1) / 2 - 1 = (gb.area.width / 2 - 2) + 1) ∧
      (gb.area.width % 2 = 1 →
        (gb.area.width + 1) / 2 - 1 = (gb.area.width / 2 - 2) + 2)) ∧
    (((gb.area.height + 1) / 2 - 2) + (gb.area.height / 2 - 1) =
        gb.area.height - 3 ∧
      fill_runs_as_equal_as_possible ((gb.area.height + 1) / 2 - 2)
        (gb.area.height / 2 - 1)) := by
  have htop : (gb.set_lns).border_segments.top_ln.segment_text =
      create_segment_full (gb.border_symbols.top_left.getD PLAIN.top_left)
        (gb.border_symbols.top_horizontal_left.getD
          (gb.border_symbols.top_horizontal.getD PLAIN.horizontal_top))
        ((gb.area.width + 1) / 2 - 1)
        (gb.border_symbols.top_center.getD
          (gb.border_symbols.top_horizontal.getD PLAIN.horizontal_top))
        (gb.border_symbols.top_horizontal_right.getD
          (gb.border_symbols.top_horizontal.getD PLAIN.horizontal_top))
        (gb.area.width / 2 - 2)
        (gb.border_symbols.top_right.getD PLAIN.top_right) := by
    simp [GradientBlock.set_lns, hsplit, SplitBorderSegments.NONE,
      SplitBorderSegments.ALL]
  have hbottom : (gb.set_lns).border_segments.bottom_ln.segment_text =
      create_segment_full
        (gb.border_symbols.bottom_left.getD PLAIN.bottom_left)
        (gb.border_symbols.bottom_horizontal_left.getD
          (gb.border_symbols.bottom_horizontal.getD PLAIN.horizontal_top))
        ((gb.area.width + 1) / 2 - 1)
        (gb.border_symbols.bottom_center.getD
          (gb.border_symbols.bottom_horizontal.getD PLAIN.horizontal_top))
        (gb.border_symbols.bottom_horizontal_right.getD
          (gb.border_symbols.bottom_horizontal.getD PLAIN.horizontal_top))
        (gb.area.width / 2 - 2)
        (gb.border_symbols.bottom_right.getD PLAIN.bottom_right) := by
    simp [GradientBlock.set_lns, hsplit, SplitBorderSegments.NONE,
      SplitBorderSegments.ALL]
  have hleft : (gb.set_lns).border_segments.left_ln.segment_text =
      create_segment_full (gb.border_symbols.top_left.getD PLAIN.top_left)
        (gb.border_symbols.top_vertical_left.getD
          (gb.border_symbols.left_vertical.getD PLAIN.vertical_left))
        ((gb.area.height + 1) / 2 - 2)
        (gb.border_symbols.left_center.getD
          (gb.border_symbols.left_vertical.getD PLAIN.vertical_left))
        (gb.border_symbols.bottom_vertical_left.getD
          (gb.border_symbols.left_vertical.getD PLAIN.vertical_left))
        (gb.area.height / 2 - 1)
        (gb.border_symbols.bottom_left.getD PLAIN.bottom_left) := by
    simp [GradientBlock.set_lns, hsplit, SplitBorderSegments.NONE,
      SplitBorderSegments.ALL]
  have hright : (gb.set_lns).border_segments.right_ln.segment_text =
      create_segment_full (gb.border_symbols.top_right.getD PLAIN.top_right)
        (gb.border_symbols.top_vertical_right.getD
          (gb.border_symbols.right_vertical.getD PLAIN.vertical_right))
        ((gb.area.height + 1) / 2 - 2)
        (gb.border_symbols.right_center.getD
          (gb.border_symbols.right_vertical.getD PLAIN.vertical_right))
        (gb.border_symbols.bottom_vertical_right.getD
          (gb.border_symbols.right_vertical.getD PLAIN.vertical_right))
        (gb.area.height / 2 - 1)
        (gb.border_symbols.bottom_right.getD PLAIN.bottom_right) := by
    simp [GradientBlock.set_lns, hsplit, SplitBorderSegments.NONE,
      SplitBorderSegments.ALL]
  refine ⟨⟨?_, ?_, ?_⟩, ⟨?_, ?_, ?_⟩, ⟨?_, ?_, ?_⟩, ⟨?_, ?_, ?_⟩,
    ⟨by omega, fun h => by omega, fun h => by omega⟩,
    by unfold fill_runs_as_equal_as_possible; omega⟩
  · rw [htop, create_segment_full_length]; omega
  · rw [htop, create_segment_full_head]
  · rw [htop, create_segment_full_getLast]
  · rw [hbottom, create_segment_full_length]; omega
  · rw [hbottom, create_segment_full_head]
  · rw [hbottom, create_segment_full_getLast]
  · rw [hleft, create_segment_full_length]; omega
  · rw [hleft, create_segment_full_head]
  · rw [hleft, create_segment_full_getLast]
  · rw [hright, create_segment_full_length]; omega
  · rw [hright, create_segment_full_head]
  · rw [hright, create_segment_full_getLast]

/-- The concrete block for the C6 witness: plain unsplit block on a
7 by 6 area. -/
def C6_example_block : GradientBlock :=
  GradientBlock.new (Rect.mk 0 0 7 6) SplitBorderSegments.NONE

/-- Witness for the amended C6 on the concrete 7 by 6 plain block. -/
theorem claim_C6_witness :
    C6_example_block.split_segments = SplitBorderSegments.NONE ∧
    4 ≤ C6_example_block.area.width ∧
    4 ≤ C6_example_block.area.height ∧
    (C6_example_block.set_lns).border_segments.top_ln.segment_text.length =
      C6_example_block.area.width ∧
    (C6_example_block.set_lns).border_segments.left_ln.segment_text.length =
      C6_example_block.area.height ∧
    (C6_example_block.set_lns).border_segments.top_ln.segment_text.head? =
      some (C6_example_block.border_symbols.top_left.getD PLAIN.top_left) := by
  have h := claim_C6_amended C6_example_block rfl (by decide) (by decide)
  exact ⟨rfl, by decide, by decide, h.1.1, h.2.2.1.1, h.1.2.1⟩

/-- A concrete block whose palette holds a previously set custom
sub-edge symbol (`top_horizontal_left = 'X'`). -/
def C9_cex_block : GradientBlock :=
  let base := GradientBlock.new (Rect.mk 0 0 4 4) SplitBorderSegments.NONE
  { base with border_symbols := { base.border_symbols with
      top_horizontal_left := some 'X' } }

/-- Claim C9, counterexample: re-selecting the built-in `Plain` style
does NOT fully replace the palette: the previously set custom sub-edge
symbol `top_horizontal_left = 'X'` is still in effect afterwards
(`set_border_style` writes only twelve of the twenty fields; on a fresh
block the same field stays `none`, showing `Plain` itself never writes
it). -/
theorem claim_C9_counterexample :
    (C9_cex_block.set_border_style BorderStyle.Plain).border_symbols.top_horizontal_left
        = some 'X' ∧
    ((GradientBlock.new (Rect.mk 0 0 4 4)
        SplitBorderSegments.NONE).set_border_style
          BorderStyle.Plain).border_symbols.top_horizontal_left = none := by
  exact ⟨rfl, rfl⟩

/-- Claim C9, amended: for every named built-in style and every built-in
misc palette (any style other than `CustomBorderType`), `set_border_style`
replaces exactly the twelve primary palette fields (four corners, four
edge fills, four centers) with that style's fixed glyph table — so those
twelve never depend on the previous palette — while the eight sub-edge
override fields (`top_horizontal_left/right`, `bottom_horizontal_left/right`,
`top_vertical_left/right`, `bottom_vertical_left/right`) are left
untouched, so a previously set custom sub-edge symbol stays in effect;
the `bordertype` field is set to the selected style. -/
theorem claim_C9_amended (gb : GradientBlock) (style : BorderStyle)
    (h : style ≠ BorderStyle.CustomBorderType) :
    (gb.set_border_style style).border_symbols =
      { gb.border_symbols with
          top_left := some (style_symbol_table style).top_left
          bottom_left := some (style_symbol_table style).bottom_left
          top_right := some (style_symbol_table style).top_right
          bottom_right := some (style_symbol_table style).bottom_right
          top_horizontal := some (style_symbol_table style).top
          bottom_horizontal := some (style_symbol_table style).bottom
          left_vertical := some (style_symbol_table style).left
          right_vertical := some (style_symbol_table style).right
          bottom_center := some (style_symbol_table style).bottom_center
          top_center := some (style_symbol_table style).top_center
          right_center := some (style_symbol_table style).right_center
          left_center := some (style_symbol_table style).left_center } ∧
    (gb.set_border_style style).bordertype = style := by
  cases style with
  | CustomBorderType => exact absurd rfl h
  | MiscBorder t =>
      cases t <;>
        exact ⟨rfl, rfl⟩
  | Plain => exact ⟨rfl, rfl⟩
  | Double => exact ⟨rfl, rfl⟩
  | Thick => exact ⟨rfl, rfl⟩
  | Rounded => exact ⟨rfl, rfl⟩

/-- Witness for the amended C9: applying `Double` to the block that has
the custom sub-edge symbol set. -/
theorem claim_C9_witness :
    BorderStyle.Double ≠ BorderStyle.CustomBorderType ∧
    (C9_cex_block.set_border_style BorderStyle.Double).border_symbols =
      { C9_cex_block.border_symbols with
          top_left := some (style_symbol_table BorderStyle.Double).top_left
          bottom_left :=
            some (style_symbol_table BorderStyle.Double).bottom_left
          top_right := some (style_symbol_table BorderStyle.Double).top_right
          bottom_right :=
            some (style_symbol_table BorderStyle.Double).bottom_right
          top_horizontal := some (style_symbol_table BorderStyle.Double).top
          bottom_horizontal :=
            some (style_symbol_table BorderStyle.Double).bottom
          left_vertical := some (style_symbol_table BorderStyle.Double).left
          right_vertical := some (style_symbol_table BorderStyle.Double).right
          bottom_center :=
            some (style_symbol_table BorderStyle.Double).bottom_center
          top_center :=
            some (style_symbol_table BorderStyle.Double).top_center
          right_center :=
            some (style_symbol_table BorderStyle.Double).right_center
          left_center :=
            some (style_symbol_table BorderStyle.Double).left_center } ∧
    (C9_cex_block.set_border_style BorderStyle.Double).bordertype =
      BorderStyle.Double := by
  have h := claim_C9_amended C9_cex_block BorderStyle.Double (by decide)
  exact ⟨by decide, h.1, h.2⟩

/-- Claim C7, counterexample: splitting the top edge of a width-6 area
produces halves of lengths 3 and 2: they sum to 5, not to the edge span
6 (`sum to exactly L` fails; the uncovered cell is the top-right corner
cell). -/
theorem claim_C7_counterexample :
    ((((GradientBlock.new (Rect.mk 0 0 6 5)
        SplitBorderSegments.TOP).set_lns).border_segments.top_horizontal_left_ln.segment_text.length) +
      (((GradientBlock.new (Rect.mk 0 0 6 5)
        SplitBorderSegments.TOP).set_lns).border_segments.top_horizontal_right_ln.segment_text.length) = 5) ∧
    (GradientBlock.new (Rect.mk 0 0 6 5)
        SplitBorderSegments.TOP).area.width = 6 ∧
    (5 : ℕ) ≠ 6 := by
  refine ⟨by decide, by decide, by decide⟩

theorem create_segment_half_length (start middle : Char) (rep : ℕ)
    (stop : Char) :
    (create_segment_half start middle rep stop).length = rep + 2 := by
  simp [create_segment_half]

theorem create_segment_half_getLast (start middle : Char) (rep : ℕ)
    (stop : Char) :
    (create_segment_half start middle rep stop).getLast? = some stop := by
  have h : create_segment_half start middle rep stop =
      (start :: List.replicate rep middle) ++ [stop] := by
    simp [create_segment_half]
  rw [h, List.getLast?_concat]

/-- Claim C7, amended (stated for the top edge; the other edges follow
the same pattern): when the `TOP` split flag is set on a block whose
segments are anchored by `BorderSegments::new`, `set_lines` replaces the
full top segment by two halves of lengths `(L+1)/2` and `(L-1)/2`
(`L = area.width ≥ 5`); these sum to `L` only for odd `L` (to `L - 1`
for even `L`), the right half is anchored at `area.right() / 2`, and
the center glyph appears in BOTH halves — as the last character of the
left half and again as the first character of the right half.  For odd
`L` on an area anchored at `x = 0` the right half starts on the very
cell on which the left half ends (one overlapping cell) and its last
character lands on cell `area.right() - 2`, leaving the corner cell
`area.right() - 1` uncovered (for `x > 0` the halving of the absolute
coordinate `right()` drifts the right half even further left of the
claimed contiguous layout). -/
theorem claim_C7_amended (gb : GradientBlock)
    (hsplit : gb.split_segments = SplitBorderSegments.TOP)
    (hw : 5 ≤ gb.area.width)
    (hnew : gb.border_segments = BorderSegments.new gb.area) :
    ((gb.set_lns).border_segments.top_ln.should_be_rendered = false ∧
      (gb.set_lns).border_segments.top_horizontal_left_ln.should_be_rendered
        = true ∧
      (gb.set_lns).border_segments.top_horizontal_right_ln.should_be_rendered
        = true) ∧
    ((gb.set_lns).border_segments.top_horizontal_left_ln.segment_text.length
        = (gb.area.width + 1) / 2 ∧
      (gb.set_lns).border_segments.top_horizontal_right_ln.segment_text.length
        = (gb.area.width - 1) / 2) ∧
    ((gb.set_lns).border_segments.top_horizontal_left_ln.segment_text.length +
        (gb.set_lns).border_segments.top_horizontal_right_ln.segment_text.length
        = if gb.area.width % 2 = 1 then gb.area.width
          else gb.area.width - 1) ∧
    ((gb.set_lns).border_segments.top_horizontal_left_ln.x = gb.area.left ∧
      (gb.set_lns).border_segments.top_horizontal_left_ln.y = gb.area.top ∧
      (gb.set_lns).border_segments.top_horizontal_right_ln.x =
        gb.area.right / 2 ∧
      (gb.set_lns).border_segments.top_horizontal_right_ln.y =
        gb.area.top) ∧
    ((gb.set_lns).border_segments.top_horizontal_left_ln.segment_text.getLast?
        = some (gb.border_symbols.top_center.getD
            (gb.border_symbols.top_horizontal.getD PLAIN.horizontal_top)) ∧
      (gb.set_lns).border_segments.top_horizontal_right_ln.segment_text.head?
        = some (gb.border_symbols.top_center.getD
            (gb.border_symbols.top_horizontal.getD PLAIN.horizontal_top))) ∧
    (gb.area.width % 2 = 1 → gb.area.x = 0 →
      (gb.area.right / 2 = gb.area.left +
          (gb.set_lns).border_segments.top_horizontal_left_ln.segment_text.length
          - 1 ∧
        gb.area.right / 2 +
          (gb.set_lns).border_segments.top_horizontal_right_ln.segment_text.length
          = gb.area.right - 1)) := by
  have hl : (gb.set_lns).border_segments.top_horizontal_left_ln.segment_text =
      create_segment_half (gb.border_symbols.top_left.getD PLAIN.top_left)
        (gb.border_symbols.top_horizontal_left.getD
          (gb.border_symbols.top_horizontal.getD PLAIN.horizontal_top))
        ((gb.area.width - 1) / 2 - 1)
        (gb.border_symbols.top_center.getD
          (gb.border_symbols.top_horizontal.getD PLAIN.horizontal_top)) := by
    simp [GradientBlock.set_lns, hsplit, SplitBorderSegments.TOP,
      SplitBorderSegments.ALL, SplitBorderSegments.NONE]
  have hr : (gb.set_lns).border_segments.top_horizontal_right_ln.segment_text =
      create_segment_half
        (gb.border_symbols.top_center.getD
          (gb.border_symbols.top_horizontal.getD PLAIN.horizontal_top))
        (gb.border_symbols.top_horizontal_right.getD
          (gb.border_symbols.top_horizontal.getD PLAIN.horizontal_top))
        ((gb.area.width - 1) / 2 - 2)
        (gb.border_symbols.top_right.getD PLAIN.top_right) := by
    simp [GradientBlock.set_lns, hsplit, SplitBorderSegments.TOP,
      SplitBorderSegments.ALL, SplitBorderSegments.NONE]
  have hflags :
      (gb.set_lns).border_segments.top_ln.should_be_rendered = false ∧
      (gb.set_lns).border_segments.top_horizontal_left_ln.should_be_rendered
        = true ∧
      (gb.set_lns).border_segments.top_horizontal_right_ln.should_be_rendered
        = true := by
    refine ⟨?_, ?_, ?_⟩ <;>
      simp [GradientBlock.set_lns, hsplit, SplitBorderSegments.TOP,
        SplitBorderSegments.ALL, SplitBorderSegments.NONE]
  have hpos :
      (gb.set_lns).border_segments.top_horizontal_left_ln.x =
        gb.border_segments.top_horizontal_left_ln.x ∧
      (gb.set_lns).border_segments.top_horizontal_left_ln.y =
        gb.border_segments.top_horizontal_left_ln.y ∧
      (gb.set_lns).border_segments.top_horizontal_right_ln.x =
        gb.border_segments.top_horizontal_right_ln.x ∧
      (gb.set_lns).border_segments.top_horizontal_right_ln.y =
        gb.border_segments.top_horizontal_right_ln.y := by
    refine ⟨?_, ?_, ?_, ?_⟩ <;>
      simp [GradientBlock.set_lns, hsplit, SplitBorderSegments.TOP,
        SplitBorderSegments.ALL, SplitBorderSegments.NONE]
  have hlen_l :
      (gb.set_lns).border_segments.top_horizontal_left_ln.segment_text.length
        = (gb.area.width + 1) / 2 := by
    rw [hl, create_segment_half_length]; omega
  have hlen_r :
      (gb.set_lns).border_segments.top_horizontal_right_ln.segment_text.length
        = (gb.area.width - 1) / 2 := by
    rw [hr, create_segment_half_length]; omega
  refine ⟨hflags, ⟨hlen_l, hlen_r⟩, ?_, ?_, ⟨?_, ?_⟩, ?_⟩
  · rw [hlen_l, hlen_r]
    rcases Nat.mod_two_eq_zero_or_one gb.area.width with he | ho
    · rw [if_neg (by omega)]; omega
    · rw [if_pos (by omega)]; omega
  · rw [hpos.1, hpos.2.1, hpos.2.2.1, hpos.2.2.2, hnew]
    simp [BorderSegments.new, BorderSegment.new, Rect.left, Rect.top]
  · rw [hl, create_segment_half_getLast]
  · rw [hr]; rfl
  · intro hodd hx
    rw [hlen_l, hlen_r]
    obtain ⟨k, hk⟩ : ∃ k, gb.area.width = 2 * k + 1 :=
      ⟨gb.area.width / 2, by omega⟩
    unfold Rect.right Rect.left
    rw [hk, hx]
    constructor <;> omega

/-- Witness for the amended C7: the 7-wide area split at the top. -/
theorem claim_C7_witness :
    (GradientBlock.new (Rect.mk 0 0 7 5)
        SplitBorderSegments.TOP).split_segments =
      SplitBorderSegments.TOP ∧
    5 ≤ (GradientBlock.new (Rect.mk 0 0 7 5)
        SplitBorderSegments.TOP).area.width ∧
    (((GradientBlock.new (Rect.mk 0 0 7 5)
        SplitBorderSegments.TOP).set_lns).border_segments.top_horizontal_left_ln.segment_text.length
      = 4 ∧
    (((GradientBlock.new (Rect.mk 0 0 7 5)
        SplitBorderSegments.TOP).set_lns).border_segments.top_horizontal_right_ln.segment_text.length
      = 3)) := by
  have h := claim_C7_amended
    (GradientBlock.new (Rect.mk 0 0 7 5) SplitBorderSegments.TOP)
    rfl (by decide) rfl
  exact ⟨rfl, by decide, by simpa using h.2.1.1, by simpa using h.2.1.2⟩

/-- Effect of one `gradients` loop iteration through the segment
projection: the named segment gets the new gradient and the
`should_use_gradient` flag; every other segment is untouched. -/
theorem getSeg_updateSegmentGradient (bs : BorderSegments)
    (seg : GradientSegments) (g : Gradient) (s : GradientSegments) :
    getSeg (updateSegmentGradient bs seg g) s =
      if s = seg then
        { getSeg bs s with gradient := g, should_use_gradient := true }
      else getSeg bs s := by
  cases seg <;> cases s <;>
    simp [getSeg, updateSegmentGradient]

/-- `gradients` leaves the non-segment state of the block untouched,
whatever the list. -/
theorem gradients_frame_toplevel (l : List (GradientSegments × Gradient)) :
    ∀ gb : GradientBlock,
      (gb.gradients l).bordertype = gb.bordertype ∧
      (gb.gradients l).fill = gb.fill ∧
      (gb.gradients l).top_titles = gb.top_titles ∧
      (gb.gradients l).bottom_titles = gb.bottom_titles ∧
      (gb.gradients l).border_symbols = gb.border_symbols ∧
      (gb.gradients l).split_segments = gb.split_segments ∧
      (gb.gradients l).area = gb.area := by
  induction l with
  | nil => intro gb; exact ⟨rfl, rfl, rfl, rfl, rfl, rfl, rfl⟩
  | cons hd tl ih =>
      intro gb
      obtain ⟨seg, g⟩ := hd
      exact ih { gb with border_segments :=
        updateSegmentGradient gb.border_segments seg g }

/-- Segment-wise effect of `gradients`: a segment named in the list
keeps its text, render flag, orientation and position; a segment not
named in the list is fully unchanged. -/
theorem gradients_frame_segments (l : List (GradientSegments × Gradient)) :
    ∀ (gb : GradientBlock) (s : GradientSegments),
      ((getSeg (gb.gradients l).border_segments s).segment_text =
          (getSeg gb.border_segments s).segment_text ∧
        (getSeg (gb.gradients l).border_segments s).should_be_rendered =
          (getSeg gb.border_segments s).should_be_rendered ∧
        (getSeg (gb.gradients l).border_segments s).is_vertical =
          (getSeg gb.border_segments s).is_vertical ∧
        (getSeg (gb.gradients l).border_segments s).x =
          (getSeg gb.border_segments s).x ∧
        (getSeg (gb.gradients l).border_segments s).y =
          (getSeg gb.border_segments s).y) ∧
      (s ∉ l.map Prod.fst →
        getSeg (gb.gradients l).border_segments s =
          getSeg gb.border_segments s) := by
  induction l with
  | nil => intro gb s; exact ⟨⟨rfl, rfl, rfl, rfl, rfl⟩, fun _ => rfl⟩
  | cons hd tl ih =>
      intro gb s
      obtain ⟨seg, g⟩ := hd
      set gb2 : GradientBlock :=
        { gb with border_segments :=
            updateSegmentGradient gb.border_segments seg g } with hgb2
      have hgr : gb.gradients ((seg, g) :: tl) = gb2.gradients tl := rfl
      have htl := ih gb2 s
      have hseg2 : getSeg gb2.border_segments s =
          if s = seg then
            { getSeg gb.border_segments s with
                gradient := g, should_use_gradient := true }
          else getSeg gb.border_segments s :=
        getSeg_updateSegmentGradient gb.border_segments seg g s
      rw [hgr]
      constructor
      · by_cases hs : s = seg
        · rw [if_pos hs] at hseg2
          exact ⟨htl.1.1.trans (by rw [hseg2]),
            htl.1.2.1.trans (by rw [hseg2]),
            htl.1.2.2.1.trans (by rw [hseg2]),
            htl.1.2.2.2.1.trans (by rw [hseg2]),
            htl.1.2.2.2.2.trans (by rw [hseg2])⟩
        · rw [if_neg hs] at hseg2
          exact ⟨htl.1.1.trans (by rw [hseg2]),
            htl.1.2.1.trans (by rw [hseg2]),
            htl.1.2.2.1.trans (by rw [hseg2]),
            htl.1.2.2.2.1.trans (by rw [hseg2]),
            htl.1.2.2.2.2.trans (by rw [hseg2])⟩
      · intro hnot
        have hs : s ≠ seg := by
          intro he; exact hnot (by simp [he])
        have htlnot : s ∉ tl.map Prod.fst := by
          intro he; exact hnot (by simp [he])
        rw [if_neg hs] at hseg2
        rw [htl.2 htlnot, hseg2]

/-- Claim C10: `set_gradients`/`gradients` assigns only the `gradient`
and `should_use_gradient` fields of the segments named in the list: the
palette, titles, fill, border type, split flags and area are unchanged,
every segment keeps its text, render flag, orientation and position,
and every segment not named in the list is entirely unchanged. -/
theorem claim_C10_gradients_frame (gb : GradientBlock)
    (l : List (GradientSegments × Gradient)) :
    ((gb.gradients l).bordertype = gb.bordertype ∧
      (gb.gradients l).fill = gb.fill ∧
      (gb.gradients l).top_titles = gb.top_titles ∧
      (gb.gradients l).bottom_titles = gb.bottom_titles ∧
      (gb.gradients l).border_symbols = gb.border_symbols ∧
      (gb.gradients l).split_segments = gb.split_segments ∧
      (gb.gradients l).area = gb.area) ∧
    (∀ s : GradientSegments,
      (getSeg (gb.gradients l).border_segments s).segment_text =
          (getSeg gb.border_segments s).segment_text ∧
        (getSeg (gb.gradients l).border_segments s).should_be_rendered =
          (getSeg gb.border_segments s).should_be_rendered ∧
        (getSeg (gb.gradients l).border_segments s).is_vertical =
          (getSeg gb.border_segments s).is_vertical ∧
        (getSeg (gb.gradients l).border_segments s).x =
          (getSeg gb.border_segments s).x ∧
        (getSeg (gb.gradients l).border_segments s).y =
          (getSeg gb.border_segments s).y) ∧
    (∀ s : GradientSegments, s ∉ l.map Prod.fst →
      getSeg (gb.gradients l).border_segments s =
        getSeg gb.border_segments s) :=
  ⟨gradients_frame_toplevel l gb,
   fun s => (gradients_frame_segments l gb s).1,
   fun s => (gradients_frame_segments l gb s).2⟩

/-- Witness for C10 at a concrete input: attaching one gradient to the
top segment of a fresh block leaves the area unchanged, keeps the top
segment's position, and leaves the bottom segment entirely unchanged. -/
theorem claim_C10_witness :
    ((GradientBlock.new (Rect.mk 1 2 9 9)
        SplitBorderSegments.NONE).gradients
          [(GradientSegments.Top,
            { gradient_list := [(1, 2, 3), (4, 5, 6)], factor := 1 })]).area =
      (GradientBlock.new (Rect.mk 1 2 9 9) SplitBorderSegments.NONE).area ∧
    (getSeg ((GradientBlock.new (Rect.mk 1 2 9 9)
        SplitBorderSegments.NONE).gradients
          [(GradientSegments.Top,
            { gradient_list := [(1, 2, 3), (4, 5, 6)], factor := 1 })]).border_segments
        GradientSegments.Top).x =
      (getSeg (GradientBlock.new (Rect.mk 1 2 9 9)
          SplitBorderSegments.NONE).border_segments
        GradientSegments.Top).x ∧
    getSeg ((GradientBlock.new (Rect.mk 1 2 9 9)
        SplitBorderSegments.NONE).gradients
          [(GradientSegments.Top,
            { gradient_list := [(1, 2, 3), (4, 5, 6)], factor := 1 })]).border_segments
        GradientSegments.Bottom =
      getSeg (GradientBlock.new (Rect.mk 1 2 9 9)
          SplitBorderSegments.NONE).border_segments
        GradientSegments.Bottom := by
  have h := claim_C10_gradients_frame
    (GradientBlock.new (Rect.mk 1 2 9 9) SplitBorderSegments.NONE)
    [(GradientSegments.Top,
      { gradient_list := [(1, 2, 3), (4, 5, 6)], factor := 1 })]
  exact ⟨h.1.2.2.2.2.2.2, (h.2.1 GradientSegments.Top).2.2.2.1,
    h.2.2 GradientSegments.Bottom (by decide)⟩

/-- Once a panic has occurred, the rest of the segment dispatch table
writes nothing: the buffer at the panic is the buffer returned. -/
theorem render_fold_panicked (pw : ℚ → ℚ → ℚ) (w : Char → ℕ)
    (m : String) :
    ∀ (lns : List BorderSegment) (buf : Buffer),
      lns.foldl (renderStep pw w) (buf, some m) = (buf, some m) := by
  intro lns
  induction lns with
  | nil => intro buf; rfl
  | cons ln rest ih =>
      intro buf
      rw [List.foldl_cons]
      exact ih buf

/-- The widget with a one-color gradient attached to the top border of
a plain 5 by 5 block. -/
def C2_cex_block : GradientBlock :=
  ((GradientBlock.new (Rect.mk 0 0 5 5)
      SplitBorderSegments.NONE).set_lns).gradients
    [(GradientSegments.Top,
      { gradient_list := [(10, 10, 10)], factor := 1 })]

set_option maxRecDepth 20000 in
/-- Claim C2, counterexample: rendering the widget whose top border
gradient has a single color does fail with the `InsufficientColors`
message, but the render is NOT atomic: the left border segment, drawn
before the top segment in the fixed dispatch order, is already
committed — the output buffer contains the top-left corner glyph at
`(0, 0)` even though the initial buffer was empty. -/
theorem claim_C2_counterexample :
    (GradientBlock.main (fun t _ => t) (fun _ => 1) (fun _ _ b => b)
        C2_cex_block (Rect.mk 0 0 5 5) []).2 = some ERROR_MESSAGE ∧
    getCell (GradientBlock.main (fun t _ => t) (fun _ => 1)
        (fun _ _ b => b) C2_cex_block (Rect.mk 0 0 5 5) []).1 (0, 0) =
      some ('┌', none) ∧
    getCell ([] : Buffer) (0, 0) = none := by
  refine ⟨by decide, by decide, rfl⟩

/-- Claim C2, amended: when the top border segment carries a gradient
with fewer than two colors and the left and right segments render
without gradients (and there is no fill string), the render pass panics
with the `InsufficientColors` message, and the buffer it leaves behind
is the input buffer WITH the left and right border segments already
written: the failure is not atomic, everything drawn before the
offending segment in the fill → border → title order stays committed. -/
theorem claim_C2_amended (pw : ℚ → ℚ → ℚ) (w : Char → ℕ)
    (host : List Span → Rect → Buffer → Buffer) (gb : GradientBlock)
    (area : Rect) (buf : Buffer)
    (hfill : gb.fill.fill_string = none)
    (htopuse : gb.border_segments.top_ln.should_use_gradient = true)
    (hcolors : gb.border_segments.top_ln.gradient.gradient_list.length < 2)
    (htopren : gb.border_segments.top_ln.should_be_rendered = true)
    (hluse : gb.border_segments.left_ln.should_use_gradient = false)
    (hruse : gb.border_segments.right_ln.should_use_gradient = false)
    (hlren : gb.border_segments.left_ln.should_be_rendered = true)
    (hrren : gb.border_segments.right_ln.should_be_rendered = true) :
    GradientBlock.main pw w host gb area buf =
      (write_segment_spans w gb.border_segments.right_ln
          (gb.border_segments.right_ln.segment_text.map
            (fun c => (c, none)))
          (write_segment_spans w gb.border_segments.left_ln
            (gb.border_segments.left_ln.segment_text.map
              (fun c => (c, none))) buf),
        some ERROR_MESSAGE) := by
  have hleft : ∀ b : Buffer,
      renderStep pw w (b, none) gb.border_segments.left_ln =
        (write_segment_spans w gb.border_segments.left_ln
          (gb.border_segments.left_ln.segment_text.map
            (fun c => (c, none))) b, none) := by
    intro b
    simp [renderStep, hlren, handle_line_logic, check_gradient, hluse]
  have hright : ∀ b : Buffer,
      renderStep pw w (b, none) gb.border_segments.right_ln =
        (write_segment_spans w gb.border_segments.right_ln
          (gb.border_segments.right_ln.segment_text.map
            (fun c => (c, none))) b, none) := by
    intro b
    simp [renderStep, hrren, handle_line_logic, check_gradient, hruse]
  have htopstep : ∀ b : Buffer,
      renderStep pw w (b, none) gb.border_segments.top_ln =
        (b, some ERROR_MESSAGE) := by
    intro b
    simp [renderStep, htopren, handle_line_logic, check_gradient,
      htopuse, create_gradient_text, if_pos hcolors]
  have hblock : render_block pw w gb buf =
      (write_segment_spans w gb.border_segments.right_ln
          (gb.border_segments.right_ln.segment_text.map
            (fun c => (c, none)))
          (write_segment_spans w gb.border_segments.left_ln
            (gb.border_segments.left_ln.segment_text.map
              (fun c => (c, none))) buf),
        some ERROR_MESSAGE) := by
    unfold render_block segmentsInRenderOrder
    rw [List.foldl_cons, hleft, List.foldl_cons, hright,
      List.foldl_cons, htopstep]
    exact render_fold_panicked pw w ERROR_MESSAGE _ _
  calc GradientBlock.main pw w host gb area buf
      = (match render_block pw w gb buf with
         | (b2, some m) => (b2, some m)
         | (b2, none) =>
             match render_titles pw w gb.top_titles .Top area b2 with
             | (b3, some m) => (b3, some m)
             | (b3, none) =>
                 render_titles pw w gb.bottom_titles .Bottom area b3) := by
        unfold GradientBlock.main
        rw [hfill]
        rfl
    _ = (write_segment_spans w gb.border_segments.right_ln
          (gb.border_segments.right_ln.segment_text.map
            (fun c => (c, none)))
          (write_segment_spans w gb.border_segments.left_ln
            (gb.border_segments.left_ln.segment_text.map
              (fun c => (c, none))) buf),
        some ERROR_MESSAGE) := by
        rw [hblock]

/-- Witness for the amended C2 at the concrete widget of the
counterexample (empty initial buffer, identity host paragraph
renderer). -/
theorem claim_C2_witness :
    C2_cex_block.fill.fill_string = none ∧
    C2_cex_block.border_segments.top_ln.gradient.gradient_list.length < 2 ∧
    GradientBlock.main (fun t _ => t) (fun _ => 1) (fun _ _ b => b)
        C2_cex_block (Rect.mk 0 0 5 5) [] =
      (write_segment_spans (fun _ => 1)
          C2_cex_block.border_segments.right_ln
          (C2_cex_block.border_segments.right_ln.segment_text.map
            (fun c => (c, none)))
          (write_segment_spans (fun _ => 1)
            C2_cex_block.border_segments.left_ln
            (C2_cex_block.border_segments.left_ln.segment_text.map
              (fun c => (c, none))) []),
        some ERROR_MESSAGE) := by
  refine ⟨by decide, by decide, ?_⟩
  exact claim_C2_amended (fun t _ => t) (fun _ => 1) (fun _ _ b => b)
    C2_cex_block (Rect.mk 0 0 5 5) [] (by decide) (by decide)
    (by decide) (by decide) (by decide) (by decide) (by decide)
    (by decide)

/-- A center-aligned title line of five one-character spans
(text width 5), as gradient-styled titles are represented. -/
def C8_cex_title : Line :=
  { spans := [('H', none), ('e', none), ('l', none), ('l', none),
      ('o', none)]
    alignment := some Alignment.Center }

/-- Claim C8, counterexample: on an area of width 21 anchored at
`x = 0`, a center-aligned title of text width 5 is anchored at `x = 7`,
not at the claimed `x = area.left + 8`: `handle_title_logic` passes
`spans.len() + 1 = 6` (the span count plus one, not the text width) to
`get_aligned_position`, which computes `(0 + 21/2) - 6/2 = 7`; the
title's first character is indeed written to cell `(7, 0)`. -/
theorem claim_C8_counterexample :
    getCell (handle_title_logic [(C8_cex_title, Position.Top)]
        (Rect.mk 0 0 21 1) []) (7, 0) = some ('H', none) ∧
    get_aligned_position (Rect.mk 0 0 21 1) (some Alignment.Center)
        (C8_cex_title.spans.length + 1) = 7 ∧
    claimed_center_anchor (Rect.mk 0 0 21 1) 5 = 8 ∧
    (7 : ℕ) ≠ 8 := by
  refine ⟨by decide, by decide, by decide, by decide⟩

/-- Claim C8, amended: for every center-aligned title line, the
horizontal anchor used by `handle_title_logic` is
`(area.left + area.width/2) − (span_count + 1)/2` with saturating
subtraction, where `span_count` is the number of spans in the title
line (NOT the text width; a gradient title has one single-character
span per character, a plain title a single span); in particular a
five-span title on an area of width 21 is anchored at
`x = area.left + 7`, not `area.left + 8`. -/
theorem claim_C8_amended (x y w h n : ℕ) (line : Line)
    (hn : line.spans.length = n)
    (halign : line.alignment = some Alignment.Center) :
    get_aligned_position (Rect.mk x y w h) line.alignment
        (line.spans.length + 1) = (x + w / 2) - (n + 1) / 2 ∧
    (w = 21 → n = 5 →
      get_aligned_position (Rect.mk x y w h) line.alignment
        (line.spans.length + 1) = x + 7) := by
  rw [halign, hn]
  refine ⟨rfl, ?_⟩
  intro hw hn5
  subst hw hn5
  show (x + 21 / 2) - 6 / 2 = x + 7
  omega

/-- Witness for the amended C8 on the concrete five-span title and the
21-wide area. -/
theorem claim_C8_witness :
    C8_cex_title.spans.length = 5 ∧
    C8_cex_title.alignment = some Alignment.Center ∧
    get_aligned_position (Rect.mk 0 0 21 1) C8_cex_title.alignment
        (C8_cex_title.spans.length + 1) = (0 + 21 / 2) - (5 + 1) / 2 ∧
    get_aligned_position (Rect.mk 0 0 21 1) C8_cex_title.alignment
        (C8_cex_title.spans.length + 1) = 0 + 7 := by
  have h := claim_C8_amended 0 0 21 1 5 C8_cex_title rfl rfl
  exact ⟨rfl, rfl, h.1, h.2 rfl rfl⟩

/-- Witness for the amended C1 at a concrete input. -/
theorem claim_C1_witness :
    ([((10 : ℕ), (10 : ℕ), (10 : ℕ))] : List RGB).length < 2 ∧
    create_gradient_text (fun t _ => t) (fun _ => 1) ['X', 'Y']
      [(10, 10, 10)] 1 = .panicked ERROR_MESSAGE :=
  ⟨by decide,
   claim_C1_amended (fun t _ => t) (fun _ => 1) ['X', 'Y']
     [(10, 10, 10)] 1 (by decide)⟩

